import Mathlib

/-!
Verification of the EcoFinds client-side data/auth layer.

Shallow embedding of `src/lib/data.ts` (entity services over localStorage)
and the `AuthManager` session façade. The browser-local key-value store is
modelled by the `Storage` structure (one field per storage key); timestamps
(`Date.now()` / ISO strings compared via `getTime()`) are modelled as `Nat`;
JS `number` prices as `ℚ`; thrown `Error(msg)` as `Except String`; the
nondeterministic `generateId()` / `new Date()` values are passed in as
explicit arguments.
-/

structure User where
  id : String
  email : String
  username : String
  password : String
  bio : Option String
  avatarUrl : Option String
  createdAt : Nat
  updatedAt : Nat
deriving DecidableEq, Repr

inductive ProductCategory where
  | electronics | fashion | homeGarden | sportsOutdoors | booksMedia
  | toysGames | automotive | healthBeauty | other
deriving DecidableEq, Repr

structure Product where
  id : String
  sellerId : String
  title : String
  description : String
  price : ℚ
  category : ProductCategory
  imageUrl : String
  isAvailable : Bool
  createdAt : Nat
  updatedAt : Nat
deriving DecidableEq, Repr

structure CartItem where
  id : String
  userId : String
  productId : String
  quantity : Nat
  addedAt : Nat
deriving DecidableEq, Repr

inductive PurchaseStatus where
  | pending | confirmed | shipped | delivered | completed | cancelled
deriving DecidableEq, Repr

structure Purchase where
  id : String
  buyerId : String
  sellerId : String
  productId : String
  quantity : Nat
  totalPrice : ℚ
  purchaseDate : Nat
  status : PurchaseStatus
deriving DecidableEq, Repr

structure AuthUser where
  id : String
  email : String
  username : String
  bio : Option String
  avatarUrl : Option String
deriving DecidableEq, Repr

structure SellerSummary where
  id : String
  username : String
deriving DecidableEq, Repr

structure ProductWithSeller extends Product where
  seller : SellerSummary
deriving DecidableEq, Repr

structure CartItemWithProduct extends CartItem where
  product : ProductWithSeller
deriving DecidableEq, Repr

/-- The browser-local key-value store: one field per `STORAGE_KEYS` entry
(`ecofinds_users`, `ecofinds_products`, `ecofinds_cart`, `ecofinds_purchases`,
`ecofinds_current_user`, `ecofinds_auth_token`). Absent keys are `none` /
the empty-collection default that `getFromStorage` supplies. -/
structure Storage where
  users : List User
  products : List Product
  cart : List CartItem
  purchases : List Purchase
  currentUser : Option AuthUser
  authToken : Option String
deriving DecidableEq, Repr

def emptyStorage : Storage :=
  { users := [], products := [], cart := [], purchases := [],
    currentUser := none, authToken := none }

/-- JS `x || dflt` for an optional string `x` (both `undefined` and the empty
string are falsy). -/
def jsOrElse (x : Option String) (dflt : String) : String :=
  match x with
  | some v => if v = "" then dflt else v
  | none => dflt

/-- JS truthiness of a `string | null` value (`null` and `""` are falsy). -/
def jsTruthyStr (x : Option String) : Bool :=
  match x with
  | some v => decide (v ≠ "")
  | none => false

/-- Whether `needle` is an initial segment of the second list. -/
def seqStartsWith {α : Type} [DecidableEq α] : List α → List α → Bool
  | [], _ => true
  | _ :: _, [] => false
  | a :: as, b :: bs => decide (a = b) && seqStartsWith as bs

/-- Whether `needle` occurs contiguously inside the second list. -/
def seqContains {α : Type} [DecidableEq α] (needle : List α) : List α → Bool
  | [] => seqStartsWith needle []
  | b :: bs => seqStartsWith needle (b :: bs) || seqContains needle bs

/-- JS `s.includes(sub)`: `sub` occurs contiguously inside `s`. -/
def jsIncludes (s sub : String) : Bool :=
  seqContains sub.toList s.toList

/-- JS `s.toLowerCase()`, character by character. -/
def jsToLower (s : String) : String :=
  String.mk (s.toList.map Char.toLower)

/-- Models `findIndex` followed by an in-place mutation of the found slot:
rewrites the first element satisfying `p` with `f`, returning the rewritten
element (`none` when `findIndex` gives `-1`) together with the new list. -/
def updateFirstGet {α : Type} (p : α → Bool) (f : α → α) : List α → Option α × List α
  | [] => (none, [])
  | x :: xs =>
    if p x then (some (f x), f x :: xs)
    else
      let r := updateFirstGet p f xs
      (r.1, x :: r.2)

/-- Insertion step of the model of the JS comparator sort
`(a, b) => b.createdAt - a.createdAt` (descending by key). -/
def insertByKeyDesc {α : Type} (key : α → Nat) (x : α) : List α → List α
  | [] => [x]
  | y :: ys => if key y ≤ key x then x :: y :: ys else y :: insertByKeyDesc key x ys

/-- Model of `.sort((a, b) => key(b) - key(a))`: some rearrangement of the
input that is sorted descending by `key`. -/
def sortByKeyDesc {α : Type} (key : α → Nat) : List α → List α
  | [] => []
  | x :: xs => insertByKeyDesc key x (sortByKeyDesc key xs)

namespace authService

/-- The reduced, password-free `AuthUser` projection built inline in
`login` / `register` / `updateProfile`. -/
def project (u : User) : AuthUser :=
  { id := u.id, email := u.email, username := u.username,
    bio := u.bio, avatarUrl := u.avatarUrl }

/-- Model of `authService.login`: linear scan for matching email and plaintext
password; on success persists the projection and a fresh token (`tokenId`
stands for the `generateId()` result). -/
def login (store : Storage) (email password : String) (tokenId : String) :
    Except String AuthUser × Storage :=
  match store.users.find? (fun u => u.email == email && u.password == password) with
  | none => (.error "Invalid credentials", store)
  | some user =>
    let authUser := project user
    (.ok authUser, { store with currentUser := some authUser, authToken := some tokenId })

def defaultAvatarImage : String :=
  "https://placehold.co/150x150?text=User+Avatar"

/-- Model of `authService.register`: rejects a taken email, then a taken username
(case-sensitive `===` scans); otherwise appends the new user and logs the
session in. `newUserId`/`tokenId` stand for the two `generateId()` calls,
`now` for `new Date()`. -/
def register (store : Storage) (email username password : String)
    (newUserId tokenId : String) (now : Nat) : Except String AuthUser × Storage :=
  if (store.users.find? (fun u => u.email == email)).isSome then
    (.error "User with this email already exists", store)
  else if (store.users.find? (fun u => u.username == username)).isSome then
    (.error "Username is already taken", store)
  else
    let newUser : User :=
      { id := newUserId, email := email, username := username, password := password,
        bio := none, avatarUrl := some defaultAvatarImage,
        createdAt := now, updatedAt := now }
    let authUser := project newUser
    (.ok authUser,
      { store with
        users := store.users ++ [newUser],
        currentUser := some authUser, authToken := some tokenId })

/-- Model of `authService.getCurrentUser`: reads the persisted projection. -/
def getCurrentUser (store : Storage) : Option AuthUser :=
  store.currentUser

/-- Model of `authService.isAuthenticated`: `!!(token && user)` over the raw token
string and the persisted projection. -/
def isAuthenticated (store : Storage) : Bool :=
  jsTruthyStr store.authToken && store.currentUser.isSome

/-- Model of `Partial<User>` as passed to `updateProfile`: a present field overrides
the stored one on spread. (The optional `bio`/`avatarUrl` fields can be set
but not cleared in this model; no claim depends on clearing them.) -/
structure UserUpdate where
  id : Option String := none
  email : Option String := none
  username : Option String := none
  password : Option String := none
  bio : Option String := none
  avatarUrl : Option String := none
  createdAt : Option Nat := none
deriving DecidableEq, Repr

/-- The spread `{ ...users[i], ...updates, updatedAt: now }`. -/
def applyUpdate (u : User) (upd : UserUpdate) (now : Nat) : User :=
  { id := upd.id.getD u.id,
    email := upd.email.getD u.email,
    username := upd.username.getD u.username,
    password := upd.password.getD u.password,
    bio := (match upd.bio with | some b => some b | none => u.bio),
    avatarUrl := (match upd.avatarUrl with | some a => some a | none => u.avatarUrl),
    createdAt := upd.createdAt.getD u.createdAt,
    updatedAt := now }

/-- Model of `authService.updateProfile`: merges `updates` into the first user whose
id matches (no uniqueness re-check), persists, and re-derives the session
projection. -/
def updateProfile (store : Storage) (userId : String) (updates : UserUpdate)
    (now : Nat) : Except String AuthUser × Storage :=
  let r := updateFirstGet (fun u => u.id == userId) (fun u => applyUpdate u updates now)
    store.users
  match r.1 with
  | none => (.error "User not found", store)
  | some updated =>
    let authUser := project updated
    (.ok authUser, { store with users := r.2, currentUser := some authUser })

end authService

namespace productService

/-- The seller join of `getAll` / `getById`: `seller?.id || ''`,
`seller?.username || 'Unknown User'`. -/
def joinSeller (users : List User) (p : Product) : ProductWithSeller :=
  let seller := users.find? (fun u => u.id == p.sellerId)
  { toProduct := p,
    seller :=
      { id := jsOrElse (seller.map (fun u => u.id)) "",
        username := jsOrElse (seller.map (fun u => u.username)) "Unknown User" } }

/-- Model of `productService.getAll`: available products, seller-joined, sorted by
`createdAt` descending. -/
def getAll (store : Storage) : List ProductWithSeller :=
  sortByKeyDesc (fun p => p.createdAt)
    ((store.products.filter (fun p => p.isAvailable)).map (joinSeller store.users))

/-- Model of `productService.getById`: first product with the id, seller-joined;
`none` models the `null` return. -/
def getById (store : Storage) (id : String) : Option ProductWithSeller :=
  (store.products.find? (fun p => p.id == id)).map (joinSeller store.users)

/-- Model of `productService.delete`: keeps every product whose id differs. -/
def deleteProduct (store : Storage) (id : String) : Storage :=
  { store with products := store.products.filter (fun p => p.id != id) }

/-- Model of `productService.search`: filters `getAll()` by
`!query || title/description case-insensitive includes`, and by category
equality when one is supplied (the `category === 'all'` branch of the source
is unreachable for the declared `ProductCategory` parameter type). -/
def search (store : Storage) (query : String) (category : Option ProductCategory) :
    List ProductWithSeller :=
  (getAll store).filter (fun product =>
    let matchesQuery := query == "" ||
      jsIncludes (jsToLower product.title) (jsToLower query) ||
      jsIncludes (jsToLower product.description) (jsToLower query)
    let matchesCategory := match category with
      | none => true
      | some c => product.category == c
    matchesQuery && matchesCategory)

end productService

namespace cartService

/-- Model of `cartService.getCartItems`: the user's cart rows joined with the current
product view; rows whose product no longer resolves (`getById` gives `null`)
are filtered out. -/
def getCartItems (store : Storage) (userId : String) : List CartItemWithProduct :=
  (store.cart.filter (fun item => item.userId == userId)).filterMap
    (fun cartItem =>
      (productService.getById store cartItem.productId).map
        (fun product => { toCartItem := cartItem, product := product }))

/-- Model of `cartService.addToCart`: merge into an existing `(userId, productId)`
row, else append a fresh row (`newId` stands for `generateId()`, `now` for
`new Date()`). Returns the resulting row and the new store. -/
def addToCart (store : Storage) (userId productId : String) (quantity : Nat)
    (newId : String) (now : Nat) : CartItem × Storage :=
  let r := updateFirstGet
    (fun item => item.userId == userId && item.productId == productId)
    (fun item => { item with quantity := item.quantity + quantity })
    store.cart
  match r.1 with
  | some item => (item, { store with cart := r.2 })
  | none =>
    let newCartItem : CartItem :=
      { id := newId, userId := userId, productId := productId,
        quantity := quantity, addedAt := now }
    (newCartItem, { store with cart := store.cart ++ [newCartItem] })

/-- Model of `cartService.removeFromCart`: keeps every cart item whose id differs. -/
def removeFromCart (store : Storage) (itemId : String) : Storage :=
  { store with cart := store.cart.filter (fun item => item.id != itemId) }

end cartService

namespace purchaseService

/-- Model of `purchaseService.createPurchase`: resolves the product through
`getById` (no availability filter), snapshots seller id and unit price,
appends a `completed` purchase, then calls
`cartService.removeFromCart(productId)` — keyed by the product id, not by a
`(buyer, product)` lookup. -/
def createPurchase (store : Storage) (buyerId productId : String) (quantity : Nat)
    (newId : String) (now : Nat) : Except String Purchase × Storage :=
  match productService.getById store productId with
  | none => (.error "Product not found", store)
  | some product =>
    let newPurchase : Purchase :=
      { id := newId, buyerId := buyerId, sellerId := product.sellerId,
        productId := productId, quantity := quantity,
        totalPrice := product.price * (quantity : ℚ),
        purchaseDate := now, status := .completed }
    let store1 := { store with purchases := store.purchases ++ [newPurchase] }
    (.ok newPurchase, cartService.removeFromCart store1 productId)

end purchaseService

namespace AuthManager

/-- The `AuthManager` singleton's in-memory state: its cached current user.
(The listener set is modelled by the notification log the handlers emit:
each `notifyListeners()` call would append the value passed to every
subscribed callback.) -/
structure State where
  currentUser : Option AuthUser
deriving DecidableEq, Repr

/-- Model of `AuthManager.getCurrentUser`: a pure read of the cache. -/
def getCurrentUser (m : State) : Option AuthUser :=
  m.currentUser

/-- The module-level `restoreSession` closure: reads the persisted session
and, when it is present and authenticated, calls
`authManager.getCurrentUser()` — a read with no assignment and no
`notifyListeners()` call. Returns the manager state afterwards and the list
of values delivered to each subscribed listener (empty: none are invoked). -/
def restoreSession (store : Storage) (m : State) : State × List (Option AuthUser) :=
  let user := authService.getCurrentUser store
  if user.isSome && authService.isAuthenticated store then
    let _ := getCurrentUser m
    (m, [])
  else (m, [])

/-- The `window.addEventListener('storage', ...)` handler: on the
`ecofinds_current_user` or `ecofinds_auth_token` key it runs
`restoreSession`, otherwise nothing. -/
def handleStorageEvent (store : Storage) (m : State) (key : String) :
    State × List (Option AuthUser) :=
  if key == "ecofinds_current_user" || key == "ecofinds_auth_token" then
    restoreSession store m
  else (m, [])

end AuthManager

/-! ## Concrete sample data (the seeded demo user/products, timestamps as `Nat`) -/

def demoUser : User :=
  { id := "demo-user-1", email := "demo@ecofinds.com", username := "EcoWarrior",
    password := "demo123", bio := some "Passionate about sustainable living.",
    avatarUrl := some "https://placehold.co/150x150?text=Eco+Warrior+Avatar",
    createdAt := 0, updatedAt := 0 }

def demoAuthUser : AuthUser := authService.project demoUser

def demoJacket : Product :=
  { id := "demo-product-1", sellerId := "demo-user-1",
    title := "Vintage Leather Jacket",
    description := "Authentic vintage leather jacket from the 80s.",
    price := 75, category := .fashion, imageUrl := "img-fashion", isAvailable := true,
    createdAt := 1, updatedAt := 1 }

def demoPhone : Product :=
  { id := "demo-product-2", sellerId := "demo-user-1",
    title := "iPhone 12 Pro Max",
    description := "Excellent condition iPhone 12 Pro Max, 128GB.",
    price := 425, category := .electronics, imageUrl := "img-electronics", isAvailable := true,
    createdAt := 2, updatedAt := 2 }

def demoStorage : Storage :=
  { users := [demoUser], products := [demoJacket, demoPhone], cart := [],
    purchases := [], currentUser := none, authToken := none }

def unavailableBike : Product :=
  { id := "bike-1", sellerId := "demo-user-1", title := "City Bike",
    description := "Used bike, some scratches.", price := 40,
    category := .sportsOutdoors, imageUrl := "img-bike", isAvailable := false,
    createdAt := 3, updatedAt := 3 }

def unavailStore : Storage := { demoStorage with products := [unavailableBike] }

/-- C10: `createPurchase` raises NotFound ("Product not found") exactly when
no product with the given id exists, regardless of the availability flag;
on an existing product with `isAvailable = false` it still succeeds and
records a purchase with status `completed`, because `getById` does not
filter on availability. -/

def cartStore : Storage :=
  { demoStorage with
    cart := [{ id := "c1", userId := "demo-user-1", productId := "demo-product-1",
               quantity := 1, addedAt := 4 },
             { id := "c2", userId := "demo-user-1", productId := "demo-product-2",
               quantity := 2, addedAt := 5 }] }

/-- The surviving joined cart row after deleting `demo-product-2`. -/
def demoCartRow : CartItemWithProduct :=
  { toCartItem := { id := "c1", userId := "demo-user-1",
                    productId := "demo-product-1", quantity := 1, addedAt := 4 },
    product := productService.joinSeller cartStore.users demoJacket }

def staleSessionStore : Storage :=
  { demoStorage with currentUser := some demoAuthUser, authToken := some "tok-1" }

def orphanProduct : Product :=
  { id := "op-1", sellerId := "ghost-user", title := "Mystery Box",
    description := "Seller record is gone.", price := 5, category := .other,
    imageUrl := "img-other", isAvailable := true, createdAt := 9, updatedAt := 9 }

def orphanStore : Storage := { emptyStorage with products := [orphanProduct] }

def orphanRow : ProductWithSeller :=
  productService.joinSeller orphanStore.users orphanProduct

def aliceUser : User :=
  { id := "u-alice", email := "alice@x.com", username := "alice", password := "pa",
    bio := none, avatarUrl := none, createdAt := 0, updatedAt := 0 }

def bobUser : User :=
  { id := "u-bob", email := "bob@x.com", username := "bob", password := "pb",
    bio := none, avatarUrl := none, createdAt := 0, updatedAt := 0 }

def abStore : Storage := { emptyStorage with users := [aliceUser, bobUser] }

/-- The case-sensitive invariant of §3: no two stored users share an email,
and no two share a username. -/
def UsersUnique (l : List User) : Prop :=
  l.Pairwise (fun a b => a.email ≠ b.email ∧ a.username ≠ b.username)

instance usersUniqueDecidable (l : List User) : Decidable (UsersUnique l) :=
  inferInstanceAs
    (Decidable (l.Pairwise (fun a b : User => a.email ≠ b.email ∧ a.username ≠ b.username)))

/-! ## Helper lemmas about the embedding's building blocks -/

theorem updateFirstGet_of_forall_false {α : Type} (p : α → Bool) (f : α → α) :
    ∀ l : List α, (∀ x ∈ l, p x = false) → updateFirstGet p f l = (none, l)
  | [], _ => rfl
  | x :: xs, h => by
    have hx : p x = false := h x (List.mem_cons_self x xs)
    have ih := updateFirstGet_of_forall_false p f xs
      (fun y hy => h y (List.mem_cons_of_mem x hy))
    simp [updateFirstGet, hx, ih]

theorem updateFirstGet_append_of_forall_false {α : Type} (p : α → Bool) (f : α → α) :
    ∀ (l l2 : List α), (∀ x ∈ l, p x = false) →
      updateFirstGet p f (l ++ l2) = ((updateFirstGet p f l2).1, l ++ (updateFirstGet p f l2).2)
  | [], _, _ => rfl
  | x :: xs, l2, h => by
    have hx : p x = false := h x (List.mem_cons_self x xs)
    have ih := updateFirstGet_append_of_forall_false p f xs l2
      (fun y hy => h y (List.mem_cons_of_mem x hy))
    simp [updateFirstGet, hx, ih]

theorem mem_updateFirstGet_snd {α : Type} (p : α → Bool) (f : α → α) :
    ∀ (l : List α) (y : α), y ∈ (updateFirstGet p f l).2 →
      y ∈ l ∨ ∃ z, z ∈ l ∧ p z = true ∧ y = f z
  | [], y, hy => by simp [updateFirstGet] at hy
  | x :: xs, y, hy => by
    by_cases hx : p x = true
    · simp only [updateFirstGet, if_pos hx, List.mem_cons] at hy
      rcases hy with h | h
      · exact Or.inr ⟨x, List.mem_cons_self x xs, hx, h⟩
      · exact Or.inl (List.mem_cons_of_mem x h)
    · simp only [updateFirstGet, if_neg hx, List.mem_cons] at hy
      rcases hy with h | h
      · exact Or.inl (h ▸ List.mem_cons_self x xs)
      · rcases mem_updateFirstGet_snd p f xs y h with h2 | ⟨z, hz, hpz, hyz⟩
        · exact Or.inl (List.mem_cons_of_mem x h2)
        · exact Or.inr ⟨z, List.mem_cons_of_mem x hz, hpz, hyz⟩

theorem find?_append_of_none {α : Type} (p : α → Bool) :
    ∀ (l l2 : List α), l.find? p = none → (l ++ l2).find? p = l2.find? p
  | [], _, _ => rfl
  | x :: xs, l2, h => by
    have hx : p x = false :=
      Bool.eq_false_iff.mpr ((List.find?_eq_none.mp h) x (List.mem_cons_self x xs))
    have hxs : xs.find? p = none :=
      List.find?_eq_none.mpr (fun y hy => (List.find?_eq_none.mp h) y (List.mem_cons_of_mem x hy))
    simp [List.find?_cons, hx, find?_append_of_none p xs l2 hxs]

theorem perm_insertByKeyDesc {α : Type} (key : α → Nat) (x : α) :
    ∀ l : List α, List.Perm (insertByKeyDesc key x l) (x :: l)
  | [] => List.Perm.refl _
  | y :: ys => by
    by_cases hxy : key y ≤ key x
    · simp only [insertByKeyDesc, if_pos hxy]
      exact List.Perm.refl _
    · simp only [insertByKeyDesc, if_neg hxy]
      exact ((perm_insertByKeyDesc key x ys).cons y).trans (List.Perm.swap x y ys)

theorem sorted_insertByKeyDesc {α : Type} (key : α → Nat) (x : α) :
    ∀ l : List α, List.Sorted (fun a b => key b ≤ key a) l →
      List.Sorted (fun a b => key b ≤ key a) (insertByKeyDesc key x l)
  | [], _ => by simp [insertByKeyDesc]
  | y :: ys, h => by
    rw [List.sorted_cons] at h
    obtain ⟨hy, hys⟩ := h
    by_cases hxy : key y ≤ key x
    · simp only [insertByKeyDesc, if_pos hxy]
      rw [List.sorted_cons]
      refine ⟨?_, ?_⟩
      · intro b hb
        rcases List.mem_cons.mp hb with rfl | hb2
        · exact hxy
        · exact le_trans (hy b hb2) hxy
      · rw [List.sorted_cons]
        exact ⟨hy, hys⟩
    · simp only [insertByKeyDesc, if_neg hxy]
      rw [List.sorted_cons]
      refine ⟨?_, sorted_insertByKeyDesc key x ys hys⟩
      intro b hb
      have hmem := (perm_insertByKeyDesc key x ys).mem_iff.mp hb
      rcases List.mem_cons.mp hmem with rfl | hb2
      · exact le_of_not_le hxy
      · exact hy b hb2

theorem sortByKeyDesc_perm {α : Type} (key : α → Nat) :
    ∀ l : List α, List.Perm (sortByKeyDesc key l) l
  | [] => List.Perm.refl _
  | x :: xs =>
    (perm_insertByKeyDesc key x (sortByKeyDesc key xs)).trans
      ((sortByKeyDesc_perm key xs).cons x)

theorem sortByKeyDesc_sorted {α : Type} (key : α → Nat) :
    ∀ l : List α, List.Sorted (fun a b => key b ≤ key a) (sortByKeyDesc key l)
  | [] => by simp [sortByKeyDesc]
  | x :: xs => sorted_insertByKeyDesc key x _ (sortByKeyDesc_sorted key xs)

theorem seqStartsWith_iff {α : Type} [DecidableEq α] :
    ∀ (n h : List α), seqStartsWith n h = true ↔ n <+: h
  | [], h => by simp [seqStartsWith, List.nil_prefix]
  | a :: as, [] => by simp [seqStartsWith]
  | a :: as, b :: bs => by
    simp [seqStartsWith, List.cons_prefix_cons, seqStartsWith_iff as bs]

theorem seqContains_iff {α : Type} [DecidableEq α] (n : List α) :
    ∀ h : List α, seqContains n h = true ↔ n <:+: h
  | [] => by simp [seqContains, seqStartsWith_iff, List.infix_nil, List.prefix_nil]
  | b :: bs => by
    simp [seqContains, seqStartsWith_iff, seqContains_iff n bs, List.infix_cons_iff,
      Bool.or_eq_true]

theorem pairwise_updateFirstGet {α : Type} {R : α → α → Prop} (p : α → Bool) (f : α → α) :
    ∀ l : List α, l.Pairwise R →
      (∀ x ∈ l, p x = true → ∀ y ∈ l, (R x y → R (f x) y) ∧ (R y x → R y (f x))) →
      (updateFirstGet p f l).2.Pairwise R
  | [], _, _ => by simp [updateFirstGet]
  | x :: xs, hl, hf => by
    rw [List.pairwise_cons] at hl
    obtain ⟨hx, hxs⟩ := hl
    by_cases hpx : p x = true
    · simp only [updateFirstGet, if_pos hpx]
      rw [List.pairwise_cons]
      refine ⟨?_, hxs⟩
      intro y hy
      exact (hf x (List.mem_cons_self x xs) hpx y (List.mem_cons_of_mem x hy)).1 (hx y hy)
    · simp only [updateFirstGet, if_neg hpx]
      rw [List.pairwise_cons]
      constructor
      · intro y hy
        rcases mem_updateFirstGet_snd p f xs y hy with h | ⟨z, hz, hpz, hyz⟩
        · exact hx y h
        · subst hyz
          exact (hf z (List.mem_cons_of_mem x hz) hpz x (List.mem_cons_self x xs)).2 (hx z hz)
      · exact pairwise_updateFirstGet p f xs hxs
          (fun a ha hpa y hy =>
            hf a (List.mem_cons_of_mem x ha) hpa y (List.mem_cons_of_mem x hy))

/-! ## Claim theorems -/

/-- C6: `login` with an unknown email, or a password that does not match the
stored plaintext password of any user holding that email, fails with
InvalidCredentials and returns the store unchanged — in particular the
persisted current-session projection and the auth token are untouched. -/
theorem login_invalid_credentials_atomic (store : Storage)
    (email password tokenId : String)
    (h : ∀ u ∈ store.users, u.email = email → u.password ≠ password) :
    authService.login store email password tokenId =
      (.error "Invalid credentials", store) := by
  have hf : store.users.find? (fun u => u.email == email && u.password == password) = none := by
    rw [List.find?_eq_none]
    intro u hu
    simp only [Bool.and_eq_true, beq_iff_eq, not_and]
    intro he hp
    exact h u hu he hp
  unfold authService.login
  rw [hf]

theorem login_invalid_credentials_atomic_witness :
    authService.login demoStorage "demo@ecofinds.com" "wrong-password" "tok" =
      (.error "Invalid credentials", demoStorage) :=
  login_invalid_credentials_atomic demoStorage "demo@ecofinds.com" "wrong-password" "tok"
    (by decide)

theorem createPurchase_ignores_availability (store : Storage)
    (buyerId productId : String) (quantity : Nat) (newId : String) (now : Nat) :
    ((purchaseService.createPurchase store buyerId productId quantity newId now).1 =
        Except.error "Product not found" ↔
      store.products.find? (fun p => p.id == productId) = none) ∧
    (∀ prod, store.products.find? (fun p => p.id == productId) = some prod →
      prod.isAvailable = false →
      ∃ pur,
        (purchaseService.createPurchase store buyerId productId quantity newId now).1 =
          Except.ok pur ∧ pur.status = PurchaseStatus.completed) := by
  unfold purchaseService.createPurchase productService.getById
  cases hf : store.products.find? (fun p => p.id == productId) with
  | none => simp
  | some prod =>
    constructor
    · simp
    · intro prod2 heq _
      exact ⟨_, rfl, rfl⟩

theorem createPurchase_ignores_availability_witness :
    ∃ pur,
      (purchaseService.createPurchase unavailStore "buyer-9" "bike-1" 3 "pid-9" 9).1 =
        Except.ok pur ∧ pur.status = PurchaseStatus.completed :=
  (createPurchase_ignores_availability unavailStore "buyer-9" "bike-1" 3 "pid-9" 9).2
    unavailableBike rfl rfl

/-- C1: `createPurchase` fails with NotFound ("Product not found") when no
product with the given id resolves; otherwise it appends and persists a
purchase whose sellerId is copied from the product, whose totalPrice is the
product's unit price times the quantity, with status `completed`, and as a
side effect removes from the cart collection exactly the cart items whose
own identifier equals the product identifier (not a (buyer, product)
lookup). -/
theorem createPurchase_behavior (store : Storage) (buyerId productId : String)
    (quantity : Nat) (newId : String) (now : Nat) :
    (store.products.find? (fun p => p.id == productId) = none →
      purchaseService.createPurchase store buyerId productId quantity newId now =
        (.error "Product not found", store)) ∧
    (∀ prod, store.products.find? (fun p => p.id == productId) = some prod →
      ∃ pur,
        purchaseService.createPurchase store buyerId productId quantity newId now =
          (.ok pur,
            { store with
              purchases := store.purchases ++ [pur],
              cart := store.cart.filter (fun item => item.id != productId) }) ∧
        pur.buyerId = buyerId ∧ pur.sellerId = prod.sellerId ∧
        pur.productId = productId ∧ pur.quantity = quantity ∧
        pur.totalPrice = prod.price * (quantity : ℚ) ∧
        pur.status = PurchaseStatus.completed) := by
  constructor
  · intro hf
    unfold purchaseService.createPurchase productService.getById
    rw [hf]
    rfl
  · intro prod hf
    refine ⟨{ id := newId, buyerId := buyerId, sellerId := prod.sellerId,
              productId := productId, quantity := quantity,
              totalPrice := prod.price * (quantity : ℚ),
              purchaseDate := now, status := .completed },
            ?_, rfl, rfl, rfl, rfl, rfl, rfl⟩
    unfold purchaseService.createPurchase productService.getById
      cartService.removeFromCart
    rw [hf]
    rfl

theorem createPurchase_behavior_witness :
    (purchaseService.createPurchase demoStorage "buyer-1" "missing-product" 2 "pid-0" 7 =
      (.error "Product not found", demoStorage)) ∧
    ∃ pur,
      purchaseService.createPurchase demoStorage "buyer-1" "demo-product-1" 2 "pid-1" 7 =
        (.ok pur,
          { demoStorage with
            purchases := demoStorage.purchases ++ [pur],
            cart := demoStorage.cart.filter (fun item => item.id != "demo-product-1") }) ∧
      pur.buyerId = "buyer-1" ∧ pur.sellerId = demoJacket.sellerId ∧
      pur.productId = "demo-product-1" ∧ pur.quantity = 2 ∧
      pur.totalPrice = demoJacket.price * (2 : ℚ) ∧
      pur.status = PurchaseStatus.completed :=
  ⟨(createPurchase_behavior demoStorage "buyer-1" "missing-product" 2 "pid-0" 7).1 rfl,
   (createPurchase_behavior demoStorage "buyer-1" "demo-product-1" 2 "pid-1" 7).2
     demoJacket rfl⟩

/-- C4: starting from a cart with no item for the pair `(u, pid)`, adding
quantity `q1` and then `q2` for that pair leaves exactly one cart item for
the pair, with quantity `q1 + q2` (the second add merges into the row the
first add inserted). -/
theorem addToCart_merges (store : Storage) (u pid : String) (q1 q2 : Nat)
    (id1 id2 : String) (t1 t2 : Nat)
    (h : ∀ item ∈ store.cart, ¬(item.userId = u ∧ item.productId = pid)) :
    (((cartService.addToCart
        (cartService.addToCart store u pid q1 id1 t1).2 u pid q2 id2 t2).2).cart.filter
      (fun item => item.userId == u && item.productId == pid)) =
      [{ id := id1, userId := u, productId := pid,
         quantity := q1 + q2, addedAt := t1 }] := by
  have hfalse : ∀ item ∈ store.cart,
      (item.userId == u && item.productId == pid) = false := by
    intro item hi
    rw [Bool.eq_false_iff]
    intro hc
    simp only [Bool.and_eq_true, beq_iff_eq] at hc
    exact h item hi hc
  have h1 : updateFirstGet (fun item => item.userId == u && item.productId == pid)
      (fun item => { item with quantity := item.quantity + q1 }) store.cart =
      (none, store.cart) :=
    updateFirstGet_of_forall_false _ _ store.cart hfalse
  have hstep1 : (cartService.addToCart store u pid q1 id1 t1).2 =
      { store with cart := store.cart ++
          [{ id := id1, userId := u, productId := pid,
             quantity := q1, addedAt := t1 }] } := by
    unfold cartService.addToCart
    rw [h1]
  rw [hstep1]
  have h2 : updateFirstGet (fun item => item.userId == u && item.productId == pid)
      (fun item => { item with quantity := item.quantity + q2 })
      (store.cart ++ [{ id := id1, userId := u, productId := pid,
                        quantity := q1, addedAt := t1 }]) =
      (some { id := id1, userId := u, productId := pid,
              quantity := q1 + q2, addedAt := t1 },
       store.cart ++ [{ id := id1, userId := u, productId := pid,
                        quantity := q1 + q2, addedAt := t1 }]) := by
    rw [updateFirstGet_append_of_forall_false _ _ store.cart _ hfalse]
    simp [updateFirstGet]
  unfold cartService.addToCart
  rw [h2]
  simp only []
  rw [List.filter_append]
  rw [List.filter_eq_nil_iff.mpr (fun a ha => by simp [hfalse a ha])]
  simp

theorem addToCart_merges_witness :
    (((cartService.addToCart
        (cartService.addToCart demoStorage "demo-user-1" "demo-product-1" 2 "ci-1" 10).2
        "demo-user-1" "demo-product-1" 3 "ci-2" 11).2).cart.filter
      (fun item => item.userId == "demo-user-1" && item.productId == "demo-product-1")) =
      [{ id := "ci-1", userId := "demo-user-1", productId := "demo-product-1",
         quantity := 5, addedAt := 10 }] :=
  addToCart_merges demoStorage "demo-user-1" "demo-product-1" 2 3 "ci-1" "ci-2" 10 11
    (by decide)

/-- C9: after `delete(pid)`, no row returned by `getCartItems` (the
`listForUser` view) references `pid`: cart items whose product was deleted
are silently dropped from the result (the join is total, so the call cannot
throw). -/
theorem delete_drops_dangling_cart_rows (store : Storage) (pid userId : String) :
    ∀ row ∈ cartService.getCartItems (productService.deleteProduct store pid) userId,
      row.productId ≠ pid := by
  intro row hrow
  unfold cartService.getCartItems at hrow
  rcases List.mem_filterMap.mp hrow with ⟨c, hc, hmap⟩
  cases hg : productService.getById (productService.deleteProduct store pid) c.productId with
  | none => rw [hg] at hmap; simp at hmap
  | some prod =>
    rw [hg] at hmap
    simp only [Option.map_some', Option.some.injEq] at hmap
    intro hcontra
    have hrowc : row.productId = c.productId := by rw [← hmap]
    have hcpid : c.productId = pid := by rw [← hrowc]; exact hcontra
    unfold productService.getById productService.deleteProduct at hg
    rw [hcpid] at hg
    have hnone : (store.products.filter (fun q => q.id != pid)).find?
        (fun q => q.id == pid) = none := by
      rw [List.find?_eq_none]
      intro x hx
      have hxp := (List.mem_filter.mp hx).2
      simp only [bne_iff_ne, ne_eq] at hxp
      simp only [beq_iff_eq]
      exact hxp
    rw [hnone] at hg
    simp at hg

theorem delete_drops_dangling_cart_rows_witness :
    demoCartRow.productId ≠ "demo-product-2" :=
  delete_drops_dangling_cart_rows cartStore "demo-product-2" "demo-user-1" demoCartRow
    (by rw [show cartService.getCartItems
          (productService.deleteProduct cartStore "demo-product-2") "demo-user-1" =
          [demoCartRow] from rfl]
        exact List.mem_singleton_self demoCartRow)

/-- C2 (refuted by the code): at a state where the persisted session holds
`demoAuthUser` but the manager's in-memory cache is empty, dispatching the
storage event for the session-projection key leaves the cache unchanged
(`none`, not the persisted value) and delivers no notification to any
subscribed listener — `restoreSession` only calls the pure getter
`AuthManager.getCurrentUser`, never an assignment or `notifyListeners`. -/
theorem storage_event_does_not_resync :
    AuthManager.handleStorageEvent staleSessionStore { currentUser := none }
        "ecofinds_current_user" = ({ currentUser := none }, []) ∧
    authService.getCurrentUser staleSessionStore = some demoAuthUser ∧
    ({ currentUser := none } : AuthManager.State).currentUser ≠ some demoAuthUser := by
  refine ⟨rfl, rfl, by simp⟩

/-- C5: with a fresh email and username, `register` succeeds, the persisted
session returned by `getCurrentUser` matches the registration input, and a
subsequent `login` with the same credentials succeeds; with a taken email
it fails with DuplicateEmail ("User with this email already exists"), and
with a fresh email but taken username with DuplicateUsername ("Username is
already taken") — both checks case-sensitive. -/
theorem register_then_login (store : Storage)
    (email username password newUserId tokenId tokenId2 : String) (now : Nat) :
    ((store.users.find? (fun u => u.email == email)).isSome = true →
      authService.register store email username password newUserId tokenId now =
        (.error "User with this email already exists", store)) ∧
    (store.users.find? (fun u => u.email == email) = none →
      (store.users.find? (fun u => u.username == username)).isSome = true →
      authService.register store email username password newUserId tokenId now =
        (.error "Username is already taken", store)) ∧
    (store.users.find? (fun u => u.email == email) = none →
      store.users.find? (fun u => u.username == username) = none →
      ∃ au store2,
        authService.register store email username password newUserId tokenId now =
          (.ok au, store2) ∧
        au.email = email ∧ au.username = username ∧
        authService.getCurrentUser store2 = some au ∧
        (authService.login store2 email password tokenId2).1 = .ok au) := by
  refine ⟨?_, ?_, ?_⟩
  · intro h
    unfold authService.register
    rw [if_pos h]
  · intro hfe h
    unfold authService.register
    rw [if_neg (by simp [hfe]), if_pos h]
  · intro hfe hfu
    unfold authService.register
    rw [if_neg (by simp [hfe]), if_neg (by simp [hfu])]
    refine ⟨_, _, rfl, rfl, rfl, rfl, ?_⟩
    have hl : (store.users ++
        [({ id := newUserId, email := email, username := username, password := password,
            bio := none, avatarUrl := some authService.defaultAvatarImage,
            createdAt := now, updatedAt := now } : User)]).find?
          (fun u => u.email == email && u.password == password) =
        some { id := newUserId, email := email, username := username,
               password := password, bio := none,
               avatarUrl := some authService.defaultAvatarImage,
               createdAt := now, updatedAt := now } := by
      rw [find?_append_of_none]
      · simp [List.find?]
      · rw [List.find?_eq_none]
        intro x hx
        simp only [Bool.and_eq_true, beq_iff_eq, not_and]
        intro hxe _
        exact absurd (by simp [hxe] : (fun u => u.email == email) x = true)
          (List.find?_eq_none.mp hfe x hx)
    unfold authService.login
    rw [hl]

theorem register_then_login_witness :
    (authService.register demoStorage "demo@ecofinds.com" "Fresh" "pw-1" "uid-9" "tok-9" 20 =
      (.error "User with this email already exists", demoStorage)) ∧
    (authService.register demoStorage "new@x.com" "EcoWarrior" "pw-1" "uid-9" "tok-9" 20 =
      (.error "Username is already taken", demoStorage)) ∧
    (∃ au store2,
      authService.register demoStorage "new@x.com" "Newbie" "pw-1" "uid-9" "tok-9" 20 =
        (.ok au, store2) ∧
      au.email = "new@x.com" ∧ au.username = "Newbie" ∧
      authService.getCurrentUser store2 = some au ∧
      (authService.login store2 "new@x.com" "pw-1" "tok-10").1 = .ok au) :=
  ⟨(register_then_login demoStorage "demo@ecofinds.com" "Fresh" "pw-1" "uid-9" "tok-9"
      "tok-10" 20).1 rfl,
   (register_then_login demoStorage "new@x.com" "EcoWarrior" "pw-1" "uid-9" "tok-9"
      "tok-10" 20).2.1 rfl rfl,
   (register_then_login demoStorage "new@x.com" "Newbie" "pw-1" "uid-9" "tok-9"
      "tok-10" 20).2.2 rfl rfl⟩

/-- C7: `getAll` (the `listAvailable` operation) returns exactly the stored
products whose availability flag is true, each seller-joined, as a list
sorted by creation time descending; when the seller record is missing the
joined username falls back to the sentinel "Unknown User". -/
theorem getAll_spec (store : Storage) :
    List.Sorted (fun a b => b.createdAt ≤ a.createdAt) (productService.getAll store) ∧
    List.Perm (productService.getAll store)
      ((store.products.filter (fun p => p.isAvailable)).map
        (productService.joinSeller store.users)) ∧
    (∀ r ∈ productService.getAll store,
      store.users.find? (fun u => u.id == r.sellerId) = none →
        r.seller.username = "Unknown User") := by
  unfold productService.getAll
  refine ⟨sortByKeyDesc_sorted _ _, sortByKeyDesc_perm _ _, ?_⟩
  intro r hr hf
  have hmem := (sortByKeyDesc_perm (fun p : ProductWithSeller => p.createdAt) _).mem_iff.mp hr
  rcases List.mem_map.mp hmem with ⟨q, hq, rfl⟩
  unfold productService.joinSeller at hf ⊢
  rw [hf]
  rfl

theorem getAll_spec_witness :
    orphanRow.seller.username = "Unknown User" :=
  (getAll_spec orphanStore).2.2 orphanRow
    (by rw [show productService.getAll orphanStore = [orphanRow] from rfl]
        exact List.mem_singleton_self orphanRow)
    rfl

/-- C8: a row is returned by `search(query, category?)` exactly when it is a
row of `getAll` (the `listAvailable` view) whose title or description
contains the query case-insensitively as a contiguous substring, and, when a
category is supplied, whose category equals it; in particular
`search("jacket")` on the demo data returns exactly the product titled
"Vintage Leather Jacket". -/
theorem search_spec (store : Storage) (query : String)
    (category : Option ProductCategory) :
    (∀ r, r ∈ productService.search store query category ↔
      (r ∈ productService.getAll store ∧
        ((jsToLower query).toList <:+: (jsToLower r.title).toList ∨
         (jsToLower query).toList <:+: (jsToLower r.description).toList) ∧
        (∀ c, category = some c → r.category = c))) ∧
    (productService.search demoStorage "jacket" none).map (fun p => p.title) =
      ["Vintage Leather Jacket"] := by
  constructor
  · intro r
    unfold productService.search
    rw [List.mem_filter]
    simp only [Bool.and_eq_true, Bool.or_eq_true, beq_iff_eq]
    constructor
    · rintro ⟨hmem, hq, hc⟩
      refine ⟨hmem, ?_, ?_⟩
      · rcases hq with (hq0 | hq1) | hq2
        · left
          rw [hq0]
          exact List.nil_infix
        · left
          exact (seqContains_iff _ _).mp hq1
        · right
          exact (seqContains_iff _ _).mp hq2
      · intro c hcat
        subst hcat
        simpa using hc
    · rintro ⟨hmem, hq, hc⟩
      refine ⟨hmem, ?_, ?_⟩
      · rcases hq with hq1 | hq2
        · left; right
          exact (seqContains_iff _ _).mpr hq1
        · right
          exact (seqContains_iff _ _).mpr hq2
      · cases category with
        | none => rfl
        | some c => simpa using hc c rfl
  · decide

theorem search_spec_witness :
    (productService.search demoStorage "jacket" none).map (fun p => p.title) =
      ["Vintage Leather Jacket"] :=
  (search_spec demoStorage "jacket" none).2

/-- C3 counterexample: on a two-user store satisfying the uniqueness
invariant, `updateProfile` of the second user with the first user's email
succeeds and yields a stored collection with two users sharing an email —
`updateProfile` performs no uniqueness re-check. -/
theorem updateProfile_breaks_uniqueness :
    UsersUnique abStore.users ∧
    ¬ UsersUnique
      ((authService.updateProfile abStore "u-bob"
          { email := some "alice@x.com" } 9).2).users := by
  constructor
  · decide
  · decide

/-- C3 (amended): `register` always preserves the email/username uniqueness
invariant; `updateProfile` preserves it provided any email or username
carried by the partial update is not already used by a stored user (the
code performs no uniqueness check on update, so the unconditional claim
fails — see the counterexample). -/
theorem mutations_preserve_uniqueness (store : Storage)
    (email username password newUserId tokenId : String) (now : Nat)
    (userId : String) (updates : authService.UserUpdate) (unow : Nat) :
    (UsersUnique store.users →
      UsersUnique
        ((authService.register store email username password newUserId tokenId now).2).users) ∧
    (UsersUnique store.users →
      (∀ e, updates.email = some e → ∀ u ∈ store.users, u.email ≠ e) →
      (∀ n, updates.username = some n → ∀ u ∈ store.users, u.username ≠ n) →
      UsersUnique
        ((authService.updateProfile store userId updates unow).2).users) := by
  constructor
  · intro hu
    unfold authService.register
    by_cases h1 : (store.users.find? (fun u => u.email == email)).isSome = true
    · rw [if_pos h1]
      exact hu
    · rw [if_neg h1]
      by_cases h2 : (store.users.find? (fun u => u.username == username)).isSome = true
      · rw [if_pos h2]
        exact hu
      · rw [if_neg h2]
        have hfe : store.users.find? (fun u => u.email == email) = none :=
          Option.not_isSome_iff_eq_none.mp h1
        have hfu : store.users.find? (fun u => u.username == username) = none :=
          Option.not_isSome_iff_eq_none.mp h2
        show (store.users ++
          [({ id := newUserId, email := email, username := username,
              password := password, bio := none,
              avatarUrl := some authService.defaultAvatarImage,
              createdAt := now, updatedAt := now } : User)]).Pairwise _
        rw [List.pairwise_append]
        refine ⟨hu, List.pairwise_singleton _ _, ?_⟩
        intro a ha b hb
        rw [List.mem_singleton] at hb
        subst hb
        constructor
        · intro hcontra
          have hae : a.email = email := hcontra
          exact (List.find?_eq_none.mp hfe a ha) (by simp [hae])
        · intro hcontra
          have hau : a.username = username := hcontra
          exact (List.find?_eq_none.mp hfu a ha) (by simp [hau])
  · intro hu hfreshE hfreshU
    unfold authService.updateProfile
    cases hr : (updateFirstGet (fun u => u.id == userId)
        (fun u => authService.applyUpdate u updates unow) store.users).1 with
    | none =>
      simp only [hr]
      exact hu
    | some upd =>
      simp only [hr]
      refine pairwise_updateFirstGet _ _ store.users hu ?_
      intro x hx hpx y hy
      constructor
      · rintro ⟨he, hn⟩
        constructor
        · cases hupd : updates.email with
          | none =>
            have heq : (authService.applyUpdate x updates unow).email = x.email := by
              simp [authService.applyUpdate, hupd]
            rw [heq]
            exact he
          | some e =>
            have heq : (authService.applyUpdate x updates unow).email = e := by
              simp [authService.applyUpdate, hupd]
            rw [heq]
            intro hcontra
            exact hfreshE e hupd y hy hcontra.symm
        · cases hupd : updates.username with
          | none =>
            have heq : (authService.applyUpdate x updates unow).username = x.username := by
              simp [authService.applyUpdate, hupd]
            rw [heq]
            exact hn
          | some n =>
            have heq : (authService.applyUpdate x updates unow).username = n := by
              simp [authService.applyUpdate, hupd]
            rw [heq]
            intro hcontra
            exact hfreshU n hupd y hy hcontra.symm
      · rintro ⟨he, hn⟩
        constructor
        · cases hupd : updates.email with
          | none =>
            have heq : (authService.applyUpdate x updates unow).email = x.email := by
              simp [authService.applyUpdate, hupd]
            rw [heq]
            exact he
          | some e =>
            have heq : (authService.applyUpdate x updates unow).email = e := by
              simp [authService.applyUpdate, hupd]
            rw [heq]
            exact hfreshE e hupd y hy
        · cases hupd : updates.username with
          | none =>
            have heq : (authService.applyUpdate x updates unow).username = x.username := by
              simp [authService.applyUpdate, hupd]
            rw [heq]
            exact hn
          | some n =>
            have heq : (authService.applyUpdate x updates unow).username = n := by
              simp [authService.applyUpdate, hupd]
            rw [heq]
            exact hfreshU n hupd y hy

theorem mutations_preserve_uniqueness_witness :
    UsersUnique
      ((authService.register abStore "carol@x.com" "carol" "pw" "u-carol" "tok" 5).2).users ∧
    UsersUnique
      ((authService.updateProfile abStore "u-bob" { bio := some "hello" } 6).2).users :=
  ⟨(mutations_preserve_uniqueness abStore "carol@x.com" "carol" "pw" "u-carol" "tok" 5
      "u-bob" { bio := some "hello" } 6).1 (by decide),
   (mutations_preserve_uniqueness abStore "carol@x.com" "carol" "pw" "u-carol" "tok" 5
      "u-bob" { bio := some "hello" } 6).2 (by decide)
      (fun _ he => Option.noConfusion he) (fun _ hn => Option.noConfusion hn)⟩
